import Mathlib

/-!
Shallow embedding of the matrix-github bridge sources:
  - UserNotificationWatcher (notification polling worker), and
  - GithubWebhooks (webhook gateway classification / response logic).
JavaScript Map objects are embedded as association lists with unique-key
semantics (lookup finds the first binding, set replaces the binding in
place, delete removes the key).  JS arrays used as the rotation queue are
embedded as Lean lists where index 0 is the head: Array.push appends at
the tail, Array.pop removes the tail element, Array.unshift prepends at
the head.  Network calls are oracles (explicit Except-valued parameters).
-/

/-- Response payload of an enrichment request (the response.data value). -/
abbrev Data := String

/-- The per-user polling stream record (interface UserStream).  The
octoKit client is represented by the token it was constructed from. -/
structure UserStream where
  token : String
  userId : String
  roomId : String
  lastReadTs : Int
deriving Repr, DecidableEq

/-- Payload of a notifications.user.enable message (interface
NotificationsEnableEvent). -/
structure NotificationsEnableEvent where
  user_id : String
  room_id : String
  since : Int
  token : String
deriving Repr, DecidableEq

/-- The subject sub-object of a notification, with the two optional
enrichment payloads.  subject.url is a string (falsy when empty);
subject.latest_comment_url is string-or-null. -/
structure NotifSubject where
  url : String
  latest_comment_url : Option String
  url_data : Option Data
  latest_comment_url_data : Option Data
deriving Repr, DecidableEq

/-- A notification item (interface UserNotification), restricted to the
fields the watcher reads or writes. -/
structure UserNotification where
  id : String
  subject : NotifSubject
deriving Repr, DecidableEq

/-- Lookup in a JS Map: the first binding of the key, if any. -/
def mapGet : List (String × UserStream) → String → Option UserStream
  | [], _ => none
  | (k', v') :: rest, k => if k' = k then some v' else mapGet rest k

/-- Map.set: replace the existing binding in place, else append. -/
def mapSet : List (String × UserStream) → String → UserStream → List (String × UserStream)
  | [], k, v => [(k, v)]
  | (k', v') :: rest, k, v =>
      if k' = k then (k, v) :: rest else (k', v') :: mapSet rest k v

/-- Map.delete: remove the key's binding(s). -/
def mapDelete : List (String × UserStream) → String → List (String × UserStream)
  | [], _ => []
  | (k', v') :: rest, k =>
      if k' = k then mapDelete rest k else (k', v') :: mapDelete rest k

/-- Map.has. -/
def mapHas (m : List (String × UserStream)) (k : String) : Bool :=
  (mapGet m k).isSome

/-- The mutable state of a UserNotificationWatcher instance:
userStreams map, userQueue array and the shouldListen flag. -/
structure WatcherState where
  userStreams : List (String × UserStream)
  userQueue : List String
  shouldListen : Bool
deriving Repr, DecidableEq

/-- Initial field values of a freshly constructed watcher. -/
def WatcherState.empty : WatcherState := ⟨[], [], false⟩

/-- JS string truthiness: a string is falsy exactly when empty. -/
def strTruthy (s : String) : Bool := !(s == "")

/-- Truthiness of a string-or-null value. -/
def optStrTruthy : Option String → Bool
  | none => false
  | some s => !(s == "")

namespace UserNotificationWatcher

/-- start(): sets shouldListen to true (and kicks off the loop). -/
def start (s : WatcherState) : WatcherState := { s with shouldListen := true }

/-- addUser(data): builds a client from data.token, upserts the
UserStream, and appends data.user_id to the queue only when the user had
no stream registered before the call. -/
def addUser (s : WatcherState) (data : NotificationsEnableEvent) : WatcherState :=
  let existing := mapHas s.userStreams data.user_id
  { s with
    userStreams := mapSet s.userStreams data.user_id
      ⟨data.token, data.user_id, data.room_id, data.since⟩
    userQueue := if existing then s.userQueue else s.userQueue ++ [data.user_id] }

/-- removeUser(userId): deletes the stream from the map; the queue is
left untouched. -/
def removeUser (s : WatcherState) (userId : String) : WatcherState :=
  { s with userStreams := mapDelete s.userStreams userId }

end UserNotificationWatcher

/-- MIN_INTERVAL_MS constant. -/
def MIN_INTERVAL_MS : Int := 45000

/-- The interval computed at line 73: MIN_INTERVAL_MS - (now - lastReadTs). -/
def waitInterval (now lastReadTs : Int) : Int :=
  MIN_INTERVAL_MS - (now - lastReadTs)

/-- The time at which the primary fetch is issued, per lines 73-81: if
the computed interval is positive the loop sleeps for exactly that long
before fetching, otherwise it fetches at once. -/
def fetchStartTime (now lastReadTs : Int) : Int :=
  if waitInterval now lastReadTs > 0 then now + waitInterval now lastReadTs else now

/-- Enrichment of one raw notification (the per-item try/catch at lines
85-101).  Both secondary requests run inside the same try block; the
catch pushes the event as mutated so far.  Returns the resulting event
together with the list of URLs actually requested, in request order. -/
def processEvent (fetch : String → Except Unit Data) (e : UserNotification) :
    UserNotification × List String :=
  if strTruthy e.subject.url then
    match fetch e.subject.url with
    | .error _ => (e, [e.subject.url])
    | .ok d =>
      let e1 : UserNotification := { e with subject := { e.subject with url_data := some d } }
      if optStrTruthy e1.subject.latest_comment_url then
        let cu := e1.subject.latest_comment_url.getD ""
        match fetch cu with
        | .error _ => (e1, [e.subject.url, cu])
        | .ok d2 =>
            ({ e1 with subject := { e1.subject with latest_comment_url_data := some d2 } },
             [e.subject.url, cu])
      else (e1, [e.subject.url])
  else
    if optStrTruthy e.subject.latest_comment_url then
      let cu := e.subject.latest_comment_url.getD ""
      match fetch cu with
      | .error _ => (e, [cu])
      | .ok d2 =>
          ({ e with subject := { e.subject with latest_comment_url_data := some d2 } }, [cu])
    else (e, [])

/-- The events array built by the for-loop at lines 83-102: every raw
notification contributes exactly one (possibly enriched) entry. -/
def processBatch (fetch : String → Except Unit Data) (raws : List UserNotification) :
    List UserNotification :=
  raws.map (fun e => (processEvent fetch e).1)

/-- Modelled from the spec (section 4.2 step 6): the two secondary
resolutions attempted independently, each in its own try, best-effort.
Written for comparison with processEvent, which embeds the source. -/
def specProcessEvent (fetch : String → Except Unit Data) (e : UserNotification) :
    UserNotification × List String :=
  let p1 :=
    if strTruthy e.subject.url then
      match fetch e.subject.url with
      | .error _ => (e, [e.subject.url])
      | .ok d => ({ e with subject := { e.subject with url_data := some d } }, [e.subject.url])
    else (e, ([] : List String))
  let e1 := p1.1
  let p2 :=
    if optStrTruthy e1.subject.latest_comment_url then
      let cu := e1.subject.latest_comment_url.getD ""
      match fetch cu with
      | .error _ => (e1, [cu])
      | .ok d2 =>
          ({ e1 with subject := { e1.subject with latest_comment_url_data := some d2 } }, [cu])
    else (e1, ([] : List String))
  (p2.1, p1.2 ++ p2.2)

/-- Oracle for one iteration of the polling loop: the outcome of the
primary notifications request, the oracle answering enrichment requests,
and the Date.now() value observed right after a successful primary
fetch (line 82). -/
structure FetchEnv where
  primary : Except Unit (List UserNotification)
  fetch : String → Except Unit Data
  fetchTime : Int

/-- The batch published on notifications.user.events (lines 103-111). -/
structure PublishedBatch where
  roomId : String
  lastReadTs : Int
  events : List UserNotification
deriving Repr, DecidableEq

/-- Observable outcome of one loop iteration. -/
inductive IterResult where
  | idle
  | dropped (userId : String)
  | fetchFailed (userId : String)
  | published (userId : String) (batch : PublishedBatch)
deriving Repr, DecidableEq

/-- The user a loop iteration issued a primary fetch for, if any. -/
def polledUser : IterResult → Option String
  | .fetchFailed u => some u
  | .published u _ => some u
  | _ => none

namespace UserNotificationWatcher

/-- One iteration of the while-loop body of fetchUserNotifications
(lines 61-116): pop the tail of userQueue (undefined on empty array and
falsy on the empty string both continue); drop the entry when no stream
is registered; otherwise fetch, on success advance lastReadTs to the
observed time, enrich, and publish; finally unshift the userId back at
the head of the queue regardless of the fetch outcome. -/
def fetchUserNotificationsStep (env : FetchEnv) (s : WatcherState) :
    WatcherState × IterResult :=
  match s.userQueue.getLast? with
  | none => (s, .idle)
  | some userId =>
    let q := s.userQueue.dropLast
    if userId = "" then ({ s with userQueue := q }, .idle)
    else
      match mapGet s.userStreams userId with
      | none => ({ s with userQueue := q }, .dropped userId)
      | some stream =>
        match env.primary with
        | .error _ => ({ s with userQueue := userId :: q }, .fetchFailed userId)
        | .ok raws =>
          let stream1 : UserStream := { stream with lastReadTs := env.fetchTime }
          let events := processBatch env.fetch raws
          ({ s with
              userStreams := mapSet s.userStreams userId stream1,
              userQueue := userId :: q },
           .published userId ⟨stream1.roomId, stream1.lastReadTs, events⟩)

end UserNotificationWatcher

/-- The webhook payload shape read by onPayload: the action string
together with the presence of the comment and issue fields (objects are
truthy exactly when present). -/
structure IWebhookEvent where
  action : String
  comment : Bool
  issue : Bool
deriving Repr, DecidableEq

namespace GithubWebhooks

/-- The guard chain of onPayload (lines 98-108), as a function of the
action and the presence of comment and issue: the first matching rule
determines the eventName, otherwise no event. -/
def classify (action : String) (hasComment hasIssue : Bool) : Option String :=
  if action == "created" && hasComment then some "comment.created"
  else if action == "edited" && hasComment then some "comment.edited"
  else if action == "edited" && hasIssue then some "issue.edited"
  else if action == "closed" && hasIssue then some "issue.closed"
  else if action == "reopened" && hasIssue then some "issue.reopened"
  else none

/-- Modelled from the spec (section 4.1 mapping table), for comparison
with classify: the listed tuples row by row, anything else no event. -/
def specClassify (action : String) (hasComment hasIssue : Bool) : Option String :=
  if action == "created" && hasComment then some "comment.created"
  else if action == "edited" && hasComment then some "comment.edited"
  else if action == "edited" && !hasComment && hasIssue then some "issue.edited"
  else if action == "closed" && hasIssue then some "issue.closed"
  else if action == "reopened" && hasIssue then some "issue.reopened"
  else none

/-- onPayload (lines 89-121) on a body that passed signature checking
and JSON parsing: classify; when a rule matched, push the event to the
queue inside a try whose catch only logs (publishOk = false means the
push throws); always answer 200.  Returns the list of events published
and the HTTP status sent. -/
def onPayload (publishOk : Bool) (body : IWebhookEvent) : List String × Nat :=
  match classify body.action body.comment body.issue with
  | some eventName => (if publishOk then [eventName] else [], 200)
  | none => ([], 200)

end GithubWebhooks

/-- State of the GithubWebhooks component and its owned watcher. -/
structure WebhooksState where
  serverRunning : Bool
  queueRunning : Bool
  watcher : WatcherState
deriving Repr, DecidableEq

/-- The operations that touch this state: listen() (starts the server
and the watcher), stop() (stops the queue and the server only), the two
bus handlers wired in the constructor (notifications.user.enable and
.disable), and one iteration of the polling loop. -/
inductive BridgeOp where
  | listen
  | stop
  | enableUser (d : NotificationsEnableEvent)
  | disableUser (u : String)
  | iterate (env : FetchEnv)

/-- Effect of each operation on the state. -/
def applyBridgeOp (s : WebhooksState) : BridgeOp → WebhooksState
  | .listen => { s with serverRunning := true,
                        watcher := UserNotificationWatcher.start s.watcher }
  | .stop => { s with queueRunning := false, serverRunning := false }
  | .enableUser d => { s with watcher := UserNotificationWatcher.addUser s.watcher d }
  | .disableUser u => { s with watcher := UserNotificationWatcher.removeUser s.watcher u }
  | .iterate env =>
      { s with watcher := (UserNotificationWatcher.fetchUserNotificationsStep env s.watcher).1 }

/-- Run a sequence of operations. -/
def applyBridgeOps (s : WebhooksState) (ops : List BridgeOp) : WebhooksState :=
  ops.foldl applyBridgeOp s

/-- A loop iteration never writes the shouldListen flag. -/
theorem fetchStep_shouldListen (env : FetchEnv) (s : WatcherState) :
    ((UserNotificationWatcher.fetchUserNotificationsStep env s).1).shouldListen
      = s.shouldListen := by
  unfold UserNotificationWatcher.fetchUserNotificationsStep
  split
  · rfl
  · split
    · rfl
    · split
      · rfl
      · split
        · rfl
        · rfl

/-- No bridge operation clears a set shouldListen flag. -/
theorem applyBridgeOp_shouldListen (s : WebhooksState) (op : BridgeOp)
    (h : s.watcher.shouldListen = true) :
    (applyBridgeOp s op).watcher.shouldListen = true := by
  cases op with
  | listen => simp [applyBridgeOp, UserNotificationWatcher.start]
  | stop => simpa [applyBridgeOp]
  | enableUser d => simpa [applyBridgeOp, UserNotificationWatcher.addUser]
  | disableUser u => simpa [applyBridgeOp, UserNotificationWatcher.removeUser]
  | iterate env => simpa [applyBridgeOp, fetchStep_shouldListen]

/-- A set shouldListen flag survives any operation sequence. -/
theorem applyBridgeOps_shouldListen (ops : List BridgeOp) (s : WebhooksState)
    (h : s.watcher.shouldListen = true) :
    (applyBridgeOps s ops).watcher.shouldListen = true := by
  induction ops generalizing s with
  | nil => exact h
  | cons op rest ih => exact ih _ (applyBridgeOp_shouldListen s op h)

/-- Lookups after Map.delete find nothing. -/
theorem mapGet_mapDelete_self (m : List (String × UserStream)) (k : String) :
    mapGet (mapDelete m k) k = none := by
  induction m with
  | nil => rfl
  | cons p rest ih =>
    obtain ⟨k', v'⟩ := p
    by_cases h : k' = k
    · simpa [mapDelete, h]
    · simp [mapDelete, mapGet, h, ih]

/-- Dequeueing a stale userId (tail of the queue, no stream) drops it:
queue shrinks by that entry, no requeue, streams untouched, no fetch. -/
theorem fetchStep_stale (t : WatcherState) (q : List String) (u : String)
    (env : FetchEnv) (hq : t.userQueue = q ++ [u]) (hu : u ≠ "")
    (hnone : mapGet t.userStreams u = none) :
    UserNotificationWatcher.fetchUserNotificationsStep env t
      = ({ t with userQueue := q }, .dropped u) := by
  have h1 : t.userQueue.getLast? = some u := by rw [hq]; exact List.getLast?_concat q
  have h2 : t.userQueue.dropLast = q := by rw [hq]; exact List.dropLast_concat
  simp only [UserNotificationWatcher.fetchUserNotificationsStep, h1, h2, if_neg hu, hnone]

/-- Dequeueing a live userId whose primary fetch fails requeues it at
the head of the queue and changes nothing else. -/
theorem fetchStep_err (t : WatcherState) (q : List String) (u : String)
    (stream : UserStream) (env : FetchEnv) (hq : t.userQueue = q ++ [u]) (hu : u ≠ "")
    (hs : mapGet t.userStreams u = some stream) (hp : env.primary = .error ()) :
    UserNotificationWatcher.fetchUserNotificationsStep env t
      = ({ t with userQueue := u :: q }, .fetchFailed u) := by
  have h1 : t.userQueue.getLast? = some u := by rw [hq]; exact List.getLast?_concat q
  have h2 : t.userQueue.dropLast = q := by rw [hq]; exact List.dropLast_concat
  simp only [UserNotificationWatcher.fetchUserNotificationsStep, h1, h2, if_neg hu, hs, hp]

/-- Dequeueing a live userId whose primary fetch succeeds advances the
stream's lastReadTs to the observed time, publishes the enriched batch,
and requeues the userId at the head of the queue. -/
theorem fetchStep_ok (t : WatcherState) (q : List String) (u : String)
    (stream : UserStream) (env : FetchEnv) (raws : List UserNotification)
    (hq : t.userQueue = q ++ [u]) (hu : u ≠ "")
    (hs : mapGet t.userStreams u = some stream) (hp : env.primary = .ok raws) :
    UserNotificationWatcher.fetchUserNotificationsStep env t
      = ({ t with
            userStreams := mapSet t.userStreams u { stream with lastReadTs := env.fetchTime },
            userQueue := u :: q },
         .published u ⟨stream.roomId, env.fetchTime, processBatch env.fetch raws⟩) := by
  have h1 : t.userQueue.getLast? = some u := by rw [hq]; exact List.getLast?_concat q
  have h2 : t.userQueue.dropLast = q := by rw [hq]; exact List.dropLast_concat
  simp only [UserNotificationWatcher.fetchUserNotificationsStep, h1, h2, if_neg hu, hs, hp]

/-- Map.set does not disturb lookups of other keys. -/
theorem mapGet_mapSet_ne (m : List (String × UserStream)) (u w : String) (v : UserStream)
    (h : w ≠ u) : mapGet (mapSet m u v) w = mapGet m w := by
  induction m with
  | nil => simp [mapSet, mapGet, Ne.symm h]
  | cons p rest ih =>
    obtain ⟨k', v'⟩ := p
    by_cases hk : k' = u
    · subst hk
      simp [mapSet, mapGet, Ne.symm h]
    · simp [mapSet, mapGet, hk, ih]

/-- Whatever the fetch outcome, an iteration on a live tail user polls
that user, requeues it at the head, and leaves every other user's
registry entry untouched. -/
theorem fetchStep_live (t : WatcherState) (q : List String) (u : String)
    (stream : UserStream) (env : FetchEnv)
    (hq : t.userQueue = q ++ [u]) (hu : u ≠ "")
    (hs : mapGet t.userStreams u = some stream) :
    (UserNotificationWatcher.fetchUserNotificationsStep env t).1.userQueue = u :: q
    ∧ polledUser (UserNotificationWatcher.fetchUserNotificationsStep env t).2 = some u
    ∧ ∀ w, w ≠ u →
        mapGet (UserNotificationWatcher.fetchUserNotificationsStep env t).1.userStreams w
          = mapGet t.userStreams w := by
  rcases hp : env.primary with e | raws
  · cases e
    rw [fetchStep_err t q u stream env hq hu hs hp]
    exact ⟨rfl, rfl, fun w _ => rfl⟩
  · rw [fetchStep_ok t q u stream env raws hq hu hs hp]
    exact ⟨rfl, rfl, fun w hw => mapGet_mapSet_ne t.userStreams u w _ hw⟩

/-- C5: removeUser(u) leaves the rotation queue untouched while making
registry lookups for u fail at once; a state in which u sits at the
dequeue position with no registered stream steps to dropping u with no
requeue and unchanged registry, and the step is independent of the
fetch oracle (no fetch is attempted). -/
theorem c5_lazy_removal (s : WatcherState) (u : String) :
    (UserNotificationWatcher.removeUser s u).userQueue = s.userQueue
    ∧ mapGet (UserNotificationWatcher.removeUser s u).userStreams u = none
    ∧ ∀ (t : WatcherState) (q : List String) (env env' : FetchEnv),
        t.userQueue = q ++ [u] → u ≠ "" → mapGet t.userStreams u = none →
        UserNotificationWatcher.fetchUserNotificationsStep env t
          = ({ t with userQueue := q }, .dropped u)
        ∧ UserNotificationWatcher.fetchUserNotificationsStep env t
          = UserNotificationWatcher.fetchUserNotificationsStep env' t := by
  refine ⟨rfl, mapGet_mapDelete_self _ _, ?_⟩
  intro t q env env' hq hu hnone
  rw [fetchStep_stale t q u env hq hu hnone, fetchStep_stale t q u env' hq hu hnone]
  exact ⟨rfl, rfl⟩

/-- A primary-fetch environment that fails. -/
def envFail : FetchEnv := ⟨Except.error (), fun _ => Except.error (), 0⟩

/-- A primary-fetch environment that succeeds with an empty batch. -/
def envOkEmpty : FetchEnv := ⟨Except.ok [], fun _ => Except.error (), 99⟩

/-- A watcher state in which user u1 is registered and sits at the
dequeue position behind u2. -/
def c7state : WatcherState :=
  ⟨[("u1", ⟨"tok", "u1", "r1", 0⟩)], ["u2", "u1"], true⟩

/-- A watcher state holding a stale queue entry for u1 (no stream). -/
def c5state : WatcherState := ⟨[], ["u2", "u1"], true⟩

/-- Witness for c5_lazy_removal at a concrete state. -/
theorem c5_lazy_removal_witness :
    (UserNotificationWatcher.removeUser c7state "u1").userQueue = c7state.userQueue
    ∧ mapGet (UserNotificationWatcher.removeUser c7state "u1").userStreams "u1" = none
    ∧ UserNotificationWatcher.fetchUserNotificationsStep envFail c5state
        = ({ c5state with userQueue := ["u2"] }, .dropped "u1")
    ∧ UserNotificationWatcher.fetchUserNotificationsStep envFail c5state
        = UserNotificationWatcher.fetchUserNotificationsStep envOkEmpty c5state := by
  have h := c5_lazy_removal c7state "u1"
  have h2 := h.2.2 c5state ["u2"] envFail envOkEmpty rfl (by decide) rfl
  exact ⟨h.1, h.2.1, h2.1, h2.2⟩

/-- C7: when the primary fetch for a live user fails, the iteration
publishes nothing (outcome fetchFailed), leaves the registry - hence
lastReadTs - unchanged, and requeues the user exactly as a successful
iteration would: at the head of the remaining queue. -/
theorem c7_failure_requeue (s : WatcherState) (q : List String) (u : String)
    (stream : UserStream) (envF : FetchEnv)
    (hq : s.userQueue = q ++ [u]) (hu : u ≠ "")
    (hs : mapGet s.userStreams u = some stream)
    (hf : envF.primary = Except.error ()) :
    UserNotificationWatcher.fetchUserNotificationsStep envF s
      = ({ s with userQueue := u :: q }, .fetchFailed u)
    ∧ (UserNotificationWatcher.fetchUserNotificationsStep envF s).1.userStreams
        = s.userStreams
    ∧ ∀ (envS : FetchEnv) (raws : List UserNotification), envS.primary = .ok raws →
        (UserNotificationWatcher.fetchUserNotificationsStep envS s).1.userQueue = u :: q := by
  have he := fetchStep_err s q u stream envF hq hu hs hf
  refine ⟨he, by rw [he], ?_⟩
  intro envS raws hok
  rw [fetchStep_ok s q u stream envS raws hq hu hs hok]

/-- Witness for c7_failure_requeue at a concrete state. -/
theorem c7_failure_requeue_witness :
    UserNotificationWatcher.fetchUserNotificationsStep envFail c7state
      = ({ c7state with userQueue := ["u1", "u2"] }, .fetchFailed "u1")
    ∧ (UserNotificationWatcher.fetchUserNotificationsStep envFail c7state).1.userStreams
        = c7state.userStreams
    ∧ (UserNotificationWatcher.fetchUserNotificationsStep envOkEmpty c7state).1.userQueue
        = ["u1", "u2"] := by
  have h := c7_failure_requeue c7state ["u2"] "u1" ⟨"tok", "u1", "r1", 0⟩ envFail rfl
    (by decide) rfl rfl
  exact ⟨h.1, h.2.1, h.2.2 envOkEmpty [] rfl⟩

/-- C2: for a stream whose lastReadTimestamp is t0, the primary fetch
of an iteration observing clock value now starts no earlier than
t0 + MIN_INTERVAL_MS, and whenever the computed waitInterval is
positive the loop sleeps for exactly that interval first. -/
theorem c2_rate_limit (now t0 : Int) :
    t0 + MIN_INTERVAL_MS ≤ fetchStartTime now t0
    ∧ (0 < waitInterval now t0 → fetchStartTime now t0 = now + waitInterval now t0) := by
  constructor
  · unfold fetchStartTime waitInterval MIN_INTERVAL_MS
    split <;> omega
  · intro h
    unfold fetchStartTime
    rw [if_pos h]

/-- Witness for c2_rate_limit at now = 10, t0 = 0. -/
theorem c2_rate_limit_witness :
    fetchStartTime 10 0 = 10 + waitInterval 10 0
    ∧ (0 : Int) + MIN_INTERVAL_MS ≤ fetchStartTime 10 0 :=
  ⟨(c2_rate_limit 10 0).2 (by decide), (c2_rate_limit 10 0).1⟩

/-- C3: webhook classification is the pure first-match-wins evaluation
of the spec's mapping table over (action, comment present, issue
present); unmatched tuples (such as a labeling action carrying an issue
but no comment) give no event, and then nothing is published. -/
theorem c3_classification :
    (∀ (action : String) (hasComment hasIssue : Bool),
        GithubWebhooks.classify action hasComment hasIssue
          = GithubWebhooks.specClassify action hasComment hasIssue)
    ∧ GithubWebhooks.classify "labeled" false true = none
    ∧ (∀ (publishOk : Bool) (b : IWebhookEvent),
        GithubWebhooks.classify b.action b.comment b.issue = none →
        GithubWebhooks.onPayload publishOk b = ([], 200)) := by
  refine ⟨?_, by decide, ?_⟩
  · intro action hasComment hasIssue
    unfold GithubWebhooks.classify GithubWebhooks.specClassify
    cases hasComment <;> cases hasIssue <;>
      by_cases h1 : action == "created" <;>
      by_cases h2 : action == "edited" <;>
      simp [h1, h2]
  · intro publishOk b h
    simp [GithubWebhooks.onPayload, h]

/-- Witness for c3_classification. -/
theorem c3_classification_witness :
    GithubWebhooks.classify "closed" true true
      = GithubWebhooks.specClassify "closed" true true
    ∧ GithubWebhooks.classify "labeled" false true = none
    ∧ GithubWebhooks.onPayload true ⟨"labeled", false, true⟩ = ([], 200) :=
  ⟨c3_classification.1 "closed" true true, c3_classification.2.1,
   c3_classification.2.2 true ⟨"labeled", false, true⟩ (by decide)⟩

/-- C8: every request that reaches onPayload is answered 200, whatever
classification yields and even when the publish throws; a throwing
publish is caught and results in no published event, with the response
unchanged. -/
theorem c8_always_200 (publishOk : Bool) (b : IWebhookEvent) :
    (GithubWebhooks.onPayload publishOk b).2 = 200
    ∧ (GithubWebhooks.onPayload false b).1 = [] := by
  unfold GithubWebhooks.onPayload
  constructor
  · cases GithubWebhooks.classify b.action b.comment b.issue <;> simp
  · cases GithubWebhooks.classify b.action b.comment b.issue <;> simp

/-- Enable event registering user u. -/
def enableU : NotificationsEnableEvent := ⟨"u", "r", 0, "tok"⟩

/-- A second enable event for the same user u. -/
def enableU2 : NotificationsEnableEvent := ⟨"u", "r2", 5, "tok2"⟩

/-- The state reached by addUser(u); removeUser(u); addUser(u) on a
started watcher. -/
def c10state : WatcherState :=
  UserNotificationWatcher.addUser
    (UserNotificationWatcher.removeUser
      (UserNotificationWatcher.addUser
        (UserNotificationWatcher.start WatcherState.empty) enableU) "u")
    enableU2

/-- C10: after addUser(u); removeUser(u); addUser(u) - the second add
happening before the stale queue entry was dequeued - the rotation
queue holds two entries for u while u has a registered stream; both
entries are live: each of the next two iterations polls u and requeues
it, so u is polled twice per rotation from then on. -/
theorem c10_duplicate_queue_entries :
    c10state.userQueue = ["u", "u"]
    ∧ mapHas c10state.userStreams "u" = true
    ∧ polledUser (UserNotificationWatcher.fetchUserNotificationsStep envOkEmpty c10state).2
        = some "u"
    ∧ (UserNotificationWatcher.fetchUserNotificationsStep envOkEmpty c10state).1.userQueue
        = ["u", "u"]
    ∧ polledUser (UserNotificationWatcher.fetchUserNotificationsStep envOkEmpty
        (UserNotificationWatcher.fetchUserNotificationsStep envOkEmpty c10state).1).2
        = some "u" :=
  ⟨rfl, rfl, rfl, rfl, rfl⟩

/-- Enable events for the three users of the fairness scenario. -/
def enable1 : NotificationsEnableEvent := ⟨"u1", "r1", 0, "t1"⟩

/-- Enable event for user u2. -/
def enable2 : NotificationsEnableEvent := ⟨"u2", "r2", 0, "t2"⟩

/-- Enable event for user u3. -/
def enable3 : NotificationsEnableEvent := ⟨"u3", "r3", 0, "t3"⟩

/-- The state reached by registering three users in order on a started
watcher. -/
def threeUserState (d1 d2 d3 : NotificationsEnableEvent) : WatcherState :=
  UserNotificationWatcher.addUser
    (UserNotificationWatcher.addUser
      (UserNotificationWatcher.addUser
        (UserNotificationWatcher.start WatcherState.empty) d1) d2) d3

/-- C1 counterexample: with u1, u2, u3 added in that order, addUser did
append each at the tail (queue [u1, u2, u3] with head u1), yet the
first dequeued-and-polled user is u3 - the tail entry, not the head -
and it is requeued at the head, so the first-poll order does not match
insertion order and the queue is not operated as a FIFO. -/
theorem c1_counterexample :
    (threeUserState enable1 enable2 enable3).userQueue = ["u1", "u2", "u3"]
    ∧ (threeUserState enable1 enable2 enable3).userQueue.head? = some "u1"
    ∧ polledUser (UserNotificationWatcher.fetchUserNotificationsStep envOkEmpty
        (threeUserState enable1 enable2 enable3)).2 = some "u3"
    ∧ (UserNotificationWatcher.fetchUserNotificationsStep envOkEmpty
        (threeUserState enable1 enable2 enable3)).1.userQueue = ["u3", "u1", "u2"]
    ∧ some "u3" ≠ some "u1" :=
  ⟨rfl, rfl, rfl, rfl, by decide⟩

/-- C1 amended: for any three users registered in order u1, u2, u3 with
no removals, addUser appends each at the tail, but the loop dequeues
from the TAIL and requeues the polled user at the HEAD, so within 3
dequeue/requeue cycles each user is polled exactly once with first-poll
order u3, u2, u1 - the REVERSE of insertion order - and the queue then
reads [u1, u2, u3] again. -/
theorem c1_amended_rotation (d1 d2 d3 : NotificationsEnableEvent)
    (env1 env2 env3 : FetchEnv)
    (h12 : d1.user_id ≠ d2.user_id) (h13 : d1.user_id ≠ d3.user_id)
    (h23 : d2.user_id ≠ d3.user_id)
    (n1 : d1.user_id ≠ "") (n2 : d2.user_id ≠ "") (n3 : d3.user_id ≠ "") :
    (threeUserState d1 d2 d3).userQueue = [d1.user_id, d2.user_id, d3.user_id]
    ∧ polledUser (UserNotificationWatcher.fetchUserNotificationsStep env1
        (threeUserState d1 d2 d3)).2 = some d3.user_id
    ∧ polledUser (UserNotificationWatcher.fetchUserNotificationsStep env2
        (UserNotificationWatcher.fetchUserNotificationsStep env1
          (threeUserState d1 d2 d3)).1).2 = some d2.user_id
    ∧ polledUser (UserNotificationWatcher.fetchUserNotificationsStep env3
        (UserNotificationWatcher.fetchUserNotificationsStep env2
          (UserNotificationWatcher.fetchUserNotificationsStep env1
            (threeUserState d1 d2 d3)).1).1).2 = some d1.user_id
    ∧ (UserNotificationWatcher.fetchUserNotificationsStep env3
        (UserNotificationWatcher.fetchUserNotificationsStep env2
          (UserNotificationWatcher.fetchUserNotificationsStep env1
            (threeUserState d1 d2 d3)).1).1).1.userQueue
        = [d1.user_id, d2.user_id, d3.user_id] := by
  have hq0 : (threeUserState d1 d2 d3).userQueue
      = [d1.user_id, d2.user_id] ++ [d3.user_id] := by
    simp [threeUserState, UserNotificationWatcher.addUser, UserNotificationWatcher.start,
      WatcherState.empty, mapHas, mapGet, mapSet, h12, h13, h23]
  have hstreams : (threeUserState d1 d2 d3).userStreams
      = [(d1.user_id, ⟨d1.token, d1.user_id, d1.room_id, d1.since⟩),
         (d2.user_id, ⟨d2.token, d2.user_id, d2.room_id, d2.since⟩),
         (d3.user_id, ⟨d3.token, d3.user_id, d3.room_id, d3.since⟩)] := by
    simp [threeUserState, UserNotificationWatcher.addUser, UserNotificationWatcher.start,
      WatcherState.empty, mapHas, mapGet, mapSet, h12, h13, h23]
  have hg1 : mapGet (threeUserState d1 d2 d3).userStreams d1.user_id
      = some ⟨d1.token, d1.user_id, d1.room_id, d1.since⟩ := by
    simp [hstreams, mapGet]
  have hg2 : mapGet (threeUserState d1 d2 d3).userStreams d2.user_id
      = some ⟨d2.token, d2.user_id, d2.room_id, d2.since⟩ := by
    simp [hstreams, mapGet, h12]
  have hg3 : mapGet (threeUserState d1 d2 d3).userStreams d3.user_id
      = some ⟨d3.token, d3.user_id, d3.room_id, d3.since⟩ := by
    simp [hstreams, mapGet, h13, h23]
  have l1 := fetchStep_live (threeUserState d1 d2 d3) [d1.user_id, d2.user_id]
    d3.user_id _ env1 hq0 n3 hg3
  have hq1 : (UserNotificationWatcher.fetchUserNotificationsStep env1
      (threeUserState d1 d2 d3)).1.userQueue
      = [d3.user_id, d1.user_id] ++ [d2.user_id] := by
    rw [l1.1]
    rfl
  have hg2' : mapGet (UserNotificationWatcher.fetchUserNotificationsStep env1
      (threeUserState d1 d2 d3)).1.userStreams d2.user_id
      = some ⟨d2.token, d2.user_id, d2.room_id, d2.since⟩ := by
    rw [l1.2.2 d2.user_id h23, hg2]
  have l2 := fetchStep_live _ [d3.user_id, d1.user_id] d2.user_id _ env2 hq1 n2 hg2'
  have hq2 : (UserNotificationWatcher.fetchUserNotificationsStep env2
      (UserNotificationWatcher.fetchUserNotificationsStep env1
        (threeUserState d1 d2 d3)).1).1.userQueue
      = [d2.user_id, d3.user_id] ++ [d1.user_id] := by
    rw [l2.1]
    rfl
  have hg1' : mapGet (UserNotificationWatcher.fetchUserNotificationsStep env2
      (UserNotificationWatcher.fetchUserNotificationsStep env1
        (threeUserState d1 d2 d3)).1).1.userStreams d1.user_id
      = some ⟨d1.token, d1.user_id, d1.room_id, d1.since⟩ := by
    rw [l2.2.2 d1.user_id h12, l1.2.2 d1.user_id h13, hg1]
  have l3 := fetchStep_live _ [d2.user_id, d3.user_id] d1.user_id _ env3 hq2 n1 hg1'
  exact ⟨by rw [hq0]; rfl, l1.2.1, l2.2.1, l3.2.1, by rw [l3.1]⟩

/-- Witness for c1_amended_rotation on the concrete users u1, u2, u3. -/
theorem c1_amended_rotation_witness :
    (threeUserState enable1 enable2 enable3).userQueue = ["u1", "u2", "u3"]
    ∧ polledUser (UserNotificationWatcher.fetchUserNotificationsStep envOkEmpty
        (threeUserState enable1 enable2 enable3)).2 = some "u3"
    ∧ polledUser (UserNotificationWatcher.fetchUserNotificationsStep envOkEmpty
        (UserNotificationWatcher.fetchUserNotificationsStep envOkEmpty
          (threeUserState enable1 enable2 enable3)).1).2 = some "u2"
    ∧ polledUser (UserNotificationWatcher.fetchUserNotificationsStep envOkEmpty
        (UserNotificationWatcher.fetchUserNotificationsStep envOkEmpty
          (UserNotificationWatcher.fetchUserNotificationsStep envOkEmpty
            (threeUserState enable1 enable2 enable3)).1).1).2 = some "u1"
    ∧ (UserNotificationWatcher.fetchUserNotificationsStep envOkEmpty
        (UserNotificationWatcher.fetchUserNotificationsStep envOkEmpty
          (UserNotificationWatcher.fetchUserNotificationsStep envOkEmpty
            (threeUserState enable1 enable2 enable3)).1).1).1.userQueue
        = ["u1", "u2", "u3"] :=
  c1_amended_rotation enable1 enable2 enable3 envOkEmpty envOkEmpty envOkEmpty
    (by decide) (by decide) (by decide) (by decide) (by decide) (by decide)

/-- C9: once listen() has set the watcher's shouldListen flag, no
sequence of available operations ever clears it, and stop() leaves the
watcher state (flag included) untouched. -/
theorem c9_loop_never_stops (s : WebhooksState) (ops : List BridgeOp) :
    (applyBridgeOps (applyBridgeOp s .listen) ops).watcher.shouldListen = true
    ∧ (applyBridgeOp s .stop).watcher = s.watcher := by
  refine ⟨applyBridgeOps_shouldListen ops _ ?_, rfl⟩
  simp [applyBridgeOp, UserNotificationWatcher.start]

/-- A notification whose subject URL is A with latest comment URL B. -/
def c6notif : UserNotification := ⟨"n1", ⟨"A", some "B", none, none⟩⟩

/-- An enrichment oracle failing on URL A and succeeding on others. -/
def c6fetch : String → Except Unit Data :=
  fun u => if u = "A" then Except.error () else Except.ok "dataB"

/-- An enrichment oracle failing on URL B and succeeding on others. -/
def c6fetchB : String → Except Unit Data :=
  fun u => if u = "B" then Except.error () else Except.ok "dataA"

/-- C6 counterexample: on a notification whose subject.url fetch throws
while its latest_comment_url fetch would succeed, the code requests
only the subject URL - the comment URL is never attempted, because both
fetches live in one try block - so the emitted item carries no comment
data that independent attempts (the spec model) would have resolved. -/
theorem c6_counterexample :
    c6fetch "B" = Except.ok "dataB"
    ∧ processEvent c6fetch c6notif = (c6notif, ["A"])
    ∧ (processEvent c6fetch c6notif).1.subject.latest_comment_url_data = none
    ∧ processEvent c6fetch c6notif ≠ specProcessEvent c6fetch c6notif :=
  ⟨rfl, rfl, rfl, by decide⟩

/-- C6 amended: the two enrichment fetches of an item run sequentially
inside a single per-item try: the batch always keeps one entry per raw
notification, pointwise and in order (no omission or corruption, no
batch abort); a subject.url fetch failure keeps the item unchanged and
skips the latest_comment_url fetch; a latest_comment_url fetch failure
keeps the item with the already-resolved subject.url data. -/
theorem c6_amended_single_try :
    (∀ (fetch : String → Except Unit Data) (raws : List UserNotification),
        (processBatch fetch raws).length = raws.length
        ∧ ∀ i : Nat, (processBatch fetch raws)[i]?
            = (raws[i]?).map (fun e => (processEvent fetch e).1))
    ∧ (∀ (fetch : String → Except Unit Data) (e : UserNotification),
        strTruthy e.subject.url = true →
        fetch e.subject.url = Except.error () →
        processEvent fetch e = (e, [e.subject.url]))
    ∧ (∀ (fetch : String → Except Unit Data) (e : UserNotification) (d : Data),
        strTruthy e.subject.url = true →
        fetch e.subject.url = Except.ok d →
        optStrTruthy e.subject.latest_comment_url = true →
        fetch (e.subject.latest_comment_url.getD "") = Except.error () →
        processEvent fetch e
          = ({ e with subject := { e.subject with url_data := some d } },
             [e.subject.url, e.subject.latest_comment_url.getD ""])) := by
  refine ⟨fun fetch raws => ⟨by simp [processBatch], fun i => ?_⟩, ?_, ?_⟩
  · simp [processBatch]
  · intro fetch e h1 h2
    simp [processEvent, h1, h2]
  · intro fetch e d h1 h2 h3 h4
    simp [processEvent, h1, h2, h3, h4]

/-- Witness for c6_amended_single_try on concrete items and oracles. -/
theorem c6_amended_single_try_witness :
    (processBatch c6fetch [c6notif]).length = [c6notif].length
    ∧ (processBatch c6fetch [c6notif])[0]?
        = ([c6notif][0]?).map (fun e => (processEvent c6fetch e).1)
    ∧ processEvent c6fetch c6notif = (c6notif, ["A"])
    ∧ processEvent c6fetchB c6notif
        = ({ c6notif with subject := { c6notif.subject with url_data := some "dataA" } },
           ["A", "B"]) :=
  ⟨(c6_amended_single_try.1 c6fetch [c6notif]).1,
   (c6_amended_single_try.1 c6fetch [c6notif]).2 0,
   c6_amended_single_try.2.1 c6fetch c6notif (by decide) rfl,
   c6_amended_single_try.2.2 c6fetchB c6notif "dataA" (by decide) rfl (by decide) rfl⟩
